import Mathlib

/-!
Shallow embedding of `flytekit/types/directory/types.py` — the lazy
remote-directory abstraction (`FlyteDirectory`) and its literal-conversion
protocol (`FlyteDirToMultipartBlobTransformer`).

Conventions of the embedding:
* Paths and URIs are `String`s; POSIX separators are assumed (the code under
  test only special-cases `os.name == "nt"`, which we do not model).
* The execution context and the storage client (`ctx.file_access`) are an
  explicit record `Ctx` of oracle functions, mirroring the narrow interface
  the source consumes: `is_remote`, `is_dir`, random path generation,
  `put_data`, listing.
* I/O performed by an operation is returned as an explicit event list
  (`Event`), so "no putData call occurs" is the absence of a `putData` event.
* Python exceptions become an `Err` inductive with one constructor per raise
  site of the embedded code (both `TypeTransformerFailedError` raise sites in
  `async_to_python_value` are distinguished by their message in the source).
-/

namespace Flytekit

/-- `pre` is a prefix of `s` (kernel-computable form of
`String.startsWith`, working on the underlying character lists). -/
def startsWithChars (pre s : String) : Bool :=
  pre.data.isPrefixOf s.data

/-- `suf` is a suffix of `s` (kernel-computable form of
`String.endsWith`). -/
def endsWithChars (suf s : String) : Bool :=
  suf.data.isSuffixOf s.data

/-- `os.path.join a b` for POSIX, two components (as used by the source). -/
def osPathJoin (a b : String) : String :=
  if startsWithChars "/" b then b
  else if a = "" ∨ endsWithChars "/" a then a ++ b
  else a ++ "/" ++ b

/-- `name.split(os.sep)[-1]`: the last `/`-separated component. -/
def basename (s : String) : String :=
  String.mk ((s.data.splitOn '/').getLastD s.data)

/-- `BlobType.BlobDimensionality` from `flytekit.models.core.types`. -/
inductive Dimensionality where
  | single
  | multipart
deriving DecidableEq, Repr

/-- `BlobType(format=..., dimensionality=...)`. -/
structure BlobTy where
  format : String
  dimensionality : Dimensionality
deriving DecidableEq, Repr

/-- `Blob(metadata=BlobMetadata(type=...), uri=...)` — `BlobMetadata` is a
single-field wrapper around the `BlobType`, flattened here. -/
structure Blob where
  metadata : BlobTy
  uri : String
deriving DecidableEq, Repr

/-- A tagged binary scalar payload (`Binary`): its tag, and the `"path"` field
of the msgpack-decoded mapping (`msgpack.loads(value).get("path", None)`). -/
structure BinaryIdl where
  tag : String
  decoded_path : Option String
deriving DecidableEq, Repr

/-- A generic protobuf-`Struct` scalar payload, reduced to the `"path"` field
of its JSON decoding, which is all `from_generic_idl` consumes. -/
structure GenericIdl where
  decoded_path : Option String
deriving DecidableEq, Repr

/-- `Scalar`: at most one of blob / binary / generic is populated. -/
structure Scalar where
  blob : Option Blob := .none
  binary : Option BinaryIdl := .none
  generic : Option GenericIdl := .none
deriving DecidableEq, Repr

/-- `Literal(scalar=...)`. -/
structure Literal where
  scalar : Option Scalar := .none
deriving DecidableEq, Repr

/-- One constructor per raise site of the embedded code. -/
inductive Err where
  /-- `TypeTransformerFailedError("Cannot convert from {lv} to {t}")`:
  the literal has no blob/uri (`AttributeError` on `lv.scalar.blob.uri`).
  In the spec taxonomy this is `ConversionFailed`. -/
  | conversionFailed
  /-- `TypeTransformerFailedError("{uri} is not a directory.")`: the blob's
  dimensionality is not MULTIPART. In the spec taxonomy, `TypeMismatch`. -/
  | notADirectoryBlob (uri : String)
  /-- `TypeTransformerFailedError("Unsupported binary format: {tag}")`. -/
  | unsupportedBinaryFormat (tag : String)
  /-- `ValueError("FlyteDirectory's path should not be None")` in
  `dict_to_flyte_directory`. -/
  | missingPathField
  /-- `ValueError("Expected a directory. {p} is not a directory")` in the
  string branch of `async_to_literal`. -/
  | expectedDirectoryValue (p : String)
  /-- `FlyteAssertion("Expected a directory. {p} is not a directory")` right
  before the upload in `async_to_literal`. -/
  | expectedDirectoryAssertion (p : String)
  /-- `FlyteAssertion("Expected a directory, but the given uri '{uri}' is not
  a directory.")` in `async_to_python_value`. -/
  | notADirectoryUri (uri : String)
  /-- `ValueError("Path should be relative.")` in `FlyteDirectory.new`. -/
  | pathShouldBeRelative
  /-- `FileExistsError` from `os.makedirs(path, exist_ok=False)`. -/
  | fileExists (p : String)
deriving DecidableEq, Repr

/-- The value of `FlyteDirectory._downloader` as a first-class description:
either the default `noop`, or the `partial(file_access.get_data, src, dst,
is_multipart=..., batch_size=...)` closures the code binds. -/
inductive Downloader where
  | noop
  | getData (src : String) (dst : String) (is_multipart : Bool)
      (batch_size : Option Nat)
deriving DecidableEq, Repr

/-- The value of `FlyteDirectory._remote_directory`. Python allows `None`,
the sentinel `False`, a `str`, a `pathlib.Path`, or any other `os.PathLike`;
the conversion code branches on `isinstance(·, (pathlib.Path, str))` and on
`· is False`, so all five cases are distinguished. -/
inductive RemoteDir where
  | none
  | noUpload
  | str (s : String)
  | path (p : String)
  | pathLike (p : String)
deriving DecidableEq, Repr

/-- `isinstance(remote_directory, (pathlib.Path, str))`. -/
def RemoteDir.isinstancePathOrStr : RemoteDir → Bool
  | .str _ => true
  | .path _ => true
  | _ => false

/-- `remote_directory is False`. -/
def RemoteDir.isFalse : RemoteDir → Bool
  | .noUpload => true
  | _ => false

/-- `python_val.remote_directory or None` — Python truthiness: `None`,
`False` and the empty string are falsy; a `pathlib.Path` (even `Path("")`)
and other path-like objects are truthy. -/
def RemoteDir.orNone : RemoteDir → Option String
  | .none => .none
  | .noUpload => .none
  | .str s => if s = "" then .none else .some s
  | .path p => .some p
  | .pathLike p => .some p

/-- Truthiness of `remote_directory` as used by `if directory.remote_directory:`
in `listdir`/`crawl` (same falsy cases as `orNone`). -/
def RemoteDir.truthy : RemoteDir → Option String := RemoteDir.orNone

/-- `FlyteDirectory.__init__` state plus `_remote_source` (set after
construction by the transformer and by `listdir`). `_downloaded` starts
`false`; `_downloader` defaults to `noop`; `_remote_source` to `None`. -/
structure FlyteDirectory where
  path : String
  downloader : Downloader := .noop
  downloaded : Bool := false
  remote_directory : RemoteDir := .none
  remote_source : Option String := .none
  /-- `type(self).extension()` — the format tag of the dynamically generated
  subtype (`FlyteDirectory.__class_getitem__(fmt)`), `""` for the base
  class. -/
  format : String := ""
deriving DecidableEq, Repr

/-- `FlyteFile` as produced by `FlyteDirectory.listdir` (only the fields the
listing code sets). -/
structure FlyteFile where
  path : String
  downloader : Downloader := .noop
  remote_source : Option String := .none
deriving DecidableEq, Repr

/-- An element of the list returned by `FlyteDirectory.listdir`. -/
inductive PathEntry where
  | file (f : FlyteFile)
  | dir (d : FlyteDirectory)
deriving DecidableEq, Repr

/-- `key["type"]` of an `fs.listdir` entry. -/
inductive EntryType where
  | file
  | directory
deriving DecidableEq, Repr

/-- An entry of `fs.listdir(final_path)`: its `name` and `type` keys. -/
structure ListEntry where
  name : String
  type : EntryType
deriving DecidableEq, Repr

/-- A storage-client call performed during an operation. -/
inductive Event where
  | putData (src : String) (dst : String) (is_multipart : Bool)
  | getData (src : String) (dst : String) (is_multipart : Bool)
  | listdirCall (uri : String)
deriving DecidableEq, Repr

/-- The execution context and storage client (`ctx` and `ctx.file_access`)
as the oracle record the directory code consumes:
* `is_remote` — `ctx.file_access.is_remote(uri)`;
* `is_local_execution` — `ctx.execution_state.is_local_execution()`;
* `is_dir` — `pathlib.Path(p).is_dir()` / `os.path.isdir(p)` on the local
  filesystem;
* `random_remote_directory` — result of `get_random_remote_directory()`;
* `random_local_directory` — result of the single
  `get_random_local_directory()` call in `async_to_python_value`;
* `put_data_result src dst` — the final URI returned by
  `async_put_data(src, dst, ...)` (the client may rewrite the scheme);
* `working_directory` — `ctx.user_space_params.working_directory`;
* `batch_size` — `get_batch_size(python_type)`;
* `fs_listdir` — `fs.listdir(uri)` on the remote filesystem;
* `os_listdir` / `is_file` — `os.listdir` / `os.path.isfile` locally;
* `fresh_local_path n` / `fresh_local_dir n` — the result of the n-th
  fresh-local-path allocation (`get_random_local_path` /
  `get_random_local_directory`) made while listing. -/
structure Ctx where
  is_remote : String → Bool
  is_local_execution : Bool
  is_dir : String → Bool
  random_remote_directory : String
  random_local_directory : String
  put_data_result : String → String → String
  working_directory : String
  batch_size : Option Nat
  fs_listdir : String → List ListEntry
  os_listdir : String → List String
  is_file : String → Bool
  fresh_local_path : Nat → String
  fresh_local_dir : Nat → String

/-- `Literal(scalar=Scalar(blob=Blob(metadata=meta, uri=uri)))`. -/
def mkBlobLit (meta : BlobTy) (uri : String) : Literal :=
  { scalar := .some { blob := .some { metadata := meta, uri := uri } } }

/-- The python value passed to `async_to_literal`: a `FlyteDirectory`, or a
`str` / `pathlib.Path` (both take the same branch after `str(python_val)`). -/
inductive PyVal where
  | dir (fd : FlyteDirectory)
  | strPath (s : String)
deriving DecidableEq, Repr

/-- The upload-or-reference tail of `async_to_literal` (lines 554-568):
if `should_upload`, pick the explicit remote destination or a fresh random
one, assert the source is a local directory, call `async_put_data` and emit
its returned URI; otherwise emit the source path verbatim. -/
def uploadOrRef (ctx : Ctx) (meta : BlobTy) (source_path : String)
    (should_upload : Bool) (remote_directory : Option String) :
    Except Err (Literal × List Event) :=
  if should_upload then
    let rd := remote_directory.getD ctx.random_remote_directory
    if ctx.is_dir source_path then
      let final := ctx.put_data_result source_path rd
      .ok (mkBlobLit meta final, [.putData source_path rd true])
    else
      .error (.expectedDirectoryAssertion source_path)
  else
    .ok (mkBlobLit meta source_path, [])

/-- `FlyteDirToMultipartBlobTransformer.async_to_literal` (lines 505-568).
`fmt` is `self.get_format(python_type)` (the subtype's extension tag). -/
def async_to_literal (ctx : Ctx) (python_val : PyVal) (fmt : String) :
    Except Err (Literal × List Event) :=
  let meta : BlobTy := { format := fmt, dimensionality := .multipart }
  match python_val with
  | .dir fd =>
    match fd.remote_source with
    | .some rs => .ok (mkBlobLit meta rs, [])
    | .none =>
      let source_path := fd.path
      let suppress :=
        !fd.remote_directory.isinstancePathOrStr &&
          (fd.remote_directory.isFalse || ctx.is_remote source_path ||
            ctx.is_local_execution)
      uploadOrRef ctx meta source_path (!suppress) fd.remote_directory.orNone
  | .strPath s =>
    if ctx.is_remote s then
      uploadOrRef ctx meta s false .none
    else if ctx.is_dir s then
      uploadOrRef ctx meta s true .none
    else
      .error (.expectedDirectoryValue s)

/-- The blob branch of `async_to_python_value` (lines 666-693): read
`lv.scalar.blob.uri` (an absent scalar or blob raises the conversion
failure), enforce MULTIPART dimensionality, then reconstruct a handle —
local URIs must exist as directories and yield a no-upload handle with no
downloader; remote URIs yield a lazy handle with a bound `get_data`
downloader and `remote_source` set. -/
def blobBranch (ctx : Ctx) (lv : Literal) (fmt : String) :
    Except Err FlyteDirectory :=
  match lv.scalar.bind Scalar.blob with
  | .none => .error .conversionFailed
  | .some blob =>
    if blob.metadata.dimensionality ≠ .multipart then
      .error (.notADirectoryBlob blob.uri)
    else if !ctx.is_remote blob.uri && !ctx.is_dir blob.uri then
      .error (.notADirectoryUri blob.uri)
    else if !ctx.is_remote blob.uri then
      .ok { path := blob.uri, remote_directory := .noUpload, format := fmt }
    else
      let local_folder := ctx.random_local_directory
      .ok { path := local_folder,
            downloader := .getData blob.uri local_folder true ctx.batch_size,
            remote_source := .some blob.uri,
            format := fmt }

/-- `dict_to_flyte_directory` (lines 570-593): a missing `path` field fails,
otherwise re-enter the conversion with a fresh MULTIPART blob literal (which
has no binary or generic payload, so this is exactly the blob branch). -/
def dict_to_flyte_directory (ctx : Ctx) (decoded_path : Option String)
    (fmt : String) : Except Err FlyteDirectory :=
  match decoded_path with
  | .none => .error .missingPathField
  | .some p =>
    blobBranch ctx (mkBlobLit { format := "", dimensionality := .multipart } p)
      fmt

/-- `MESSAGEPACK` from `flytekit.core.constants`. -/
def MESSAGEPACK : String := "msgpack"

/-- `from_binary_idl` (lines 595-626). -/
def from_binary_idl (ctx : Ctx) (b : BinaryIdl) (fmt : String) :
    Except Err FlyteDirectory :=
  if b.tag = MESSAGEPACK then
    dict_to_flyte_directory ctx b.decoded_path fmt
  else
    .error (.unsupportedBinaryFormat b.tag)

/-- `from_generic_idl` (lines 628-654). -/
def from_generic_idl (ctx : Ctx) (g : GenericIdl) (fmt : String) :
    Except Err FlyteDirectory :=
  dict_to_flyte_directory ctx g.decoded_path fmt

/-- `FlyteDirToMultipartBlobTransformer.async_to_python_value`
(lines 656-693): dispatch on binary / generic scalar payloads first, then
the blob branch. -/
def async_to_python_value (ctx : Ctx) (lv : Literal) (fmt : String) :
    Except Err FlyteDirectory :=
  match lv.scalar with
  | .some sc =>
    match sc.binary with
    | .some b => from_binary_idl ctx b fmt
    | .none =>
      match sc.generic with
      | .some g => from_generic_idl ctx g fmt
      | .none => blobBranch ctx lv fmt
  | .none => blobBranch ctx lv fmt

/-- The mutable state touched by `__fspath__`: the handle itself, plus a
count of how many times its `_downloader` has been invoked so far (the
environment's view of the trigger). -/
structure DownloadState where
  fd : FlyteDirectory
  runs : Nat
deriving DecidableEq, Repr

/-- `FlyteDirectory.__fspath__` (lines 201-220). The behaviour of the bound
downloader is given by the oracle `trig`: `trig k` is the outcome of its
(k+1)-th invocation — `.ok ()` if that run returns (the coroutine and plain
cases both run to completion before `__fspath__` proceeds), `.error e` if it
raises `e`. If the handle is already downloaded, return the path with no
invocation; otherwise invoke the downloader once — on success set
`_downloaded := true` and return the path, on an exception propagate it
(the `self._downloaded = True` assignment is never reached). -/
def fspath {E : Type} (trig : Nat → Except E Unit) (s : DownloadState) :
    Except E String × DownloadState :=
  if s.fd.downloaded then
    (.ok s.fd.path, s)
  else
    match trig s.runs with
    | .ok _ =>
      (.ok s.fd.path, { fd := { s.fd with downloaded := true },
                        runs := s.runs + 1 })
    | .error e => (.error e, { s with runs := s.runs + 1 })

/-- `FlyteDirectory.download` (lines 359-360) just delegates to
`__fspath__`. -/
def download {E : Type} (trig : Nat → Except E Unit) (s : DownloadState) :
    Except E String × DownloadState :=
  fspath trig s

/-- `N` successive `__fspath__` calls on the same handle, collecting each
call's result. -/
def fspathIter {E : Type} (trig : Nat → Except E Unit) :
    Nat → DownloadState → List (Except E String) × DownloadState
  | 0, s => ([], s)
  | n + 1, s =>
    let (r, s') := fspath trig s
    let (rs, s'') := fspathIter trig n s'
    (r :: rs, s'')

/-- `os.path.isabs` on POSIX. -/
def isAbs (p : String) : Bool := startsWithChars "/" p

/-- `FlyteDirectory.new` (lines 245-260). `fs_exists` is the local
filesystem's `os.path.exists`; on success the directory is created eagerly
(`os.makedirs(path, exist_ok=False)`), returned as the updated existence
predicate (missing ancestors are also created by `makedirs`; no claim
depends on them, only the target is recorded). -/
def FlyteDirectory.new (ctx : Ctx) (fs_exists : String → Bool)
    (dirname : String) :
    Except Err (FlyteDirectory × (String → Bool)) :=
  if isAbs dirname then
    .error .pathShouldBeRelative
  else
    let path := osPathJoin ctx.working_directory dirname
    if fs_exists path then
      .error (.fileExists path)
    else
      .ok ({ path := path }, fun p => p = path || fs_exists p)

/-- Python truthiness of an `Optional[str]` (`None` and `""` are falsy). -/
def optTruthy : Option String → Option String
  | .some s => if s = "" then .none else .some s
  | .none => .none

/-- The `final_path` computation shared by `listdir` and `crawl`
(lines 382-386, 437-441): prefer a truthy `remote_source`, else a truthy
`remote_directory`, else `path`. -/
def effective_path (fd : FlyteDirectory) : String :=
  match optTruthy fd.remote_source with
  | .some rs => rs
  | .none =>
    match fd.remote_directory.truthy with
    | .some rd => rd
    | .none => fd.path

/-- The remote loop body of `listdir` (lines 400-416), threading the index
`n` of the next fresh-local-path allocation: for each listed entry compute
its own remote key `os.path.join(final_path, name.split(os.sep)[-1])`,
allocate a fresh local destination, bind a `partial` `get_data` downloader
(file: single-object, `is_multipart=False`; subdirectory: recursive,
`is_multipart=True`; no batch size is bound here), and set
`_remote_source` on the child. -/
def listdirRemoteChildren (ctx : Ctx) (final_path : String) :
    List ListEntry → Nat → List PathEntry
  | [], _ => []
  | e :: rest, n =>
    let remote_path := osPathJoin final_path (basename e.name)
    match e.type with
    | .file =>
      let local_path := ctx.fresh_local_path n
      .file { path := local_path,
              downloader := .getData remote_path local_path false .none,
              remote_source := .some remote_path }
        :: listdirRemoteChildren ctx final_path rest (n + 1)
    | .directory =>
      let local_folder := ctx.fresh_local_dir n
      .dir { path := local_folder,
             downloader := .getData remote_path local_folder true .none,
             remote_source := .some remote_path }
        :: listdirRemoteChildren ctx final_path rest (n + 1)

/-- `FlyteDirectory.listdir` (lines 362-418), with the storage-client calls
it performs returned as events. The local branch does an eager `os.listdir`
and wraps children with no downloader (no storage-client call at all); the
remote branch performs exactly one `fs.listdir` call and builds lazy
children. -/
def listdir (ctx : Ctx) (directory : FlyteDirectory) :
    List PathEntry × List Event :=
  let final_path := effective_path directory
  if !ctx.is_remote final_path then
    ((ctx.os_listdir final_path).map fun p =>
      let joined_path := osPathJoin final_path p
      if ctx.is_file joined_path then
        .file { path := joined_path }
      else
        .dir { path := joined_path },
     [])
  else
    (listdirRemoteChildren ctx final_path (ctx.fs_listdir final_path) 0,
     [.listdirCall final_path])

/-! ### Concrete contexts and values used by witnesses and counterexamples -/

deriving instance DecidableEq for Except

/-- A small concrete context: `s3://` URIs are remote, `/tmp/mydir` is the
only local directory, uploads land where they are sent. -/
def ctxA : Ctx :=
  { is_remote := fun s => startsWithChars "s3://" s
    is_local_execution := false
    is_dir := fun s => s = "/tmp/mydir"
    random_remote_directory := "s3://rand/xyz"
    random_local_directory := "/tmp/localrand"
    put_data_result := fun _ dst => dst
    working_directory := "/work"
    batch_size := .none
    fs_listdir := fun _ => []
    os_listdir := fun _ => []
    is_file := fun _ => false
    fresh_local_path := fun n => String.mk ('f' :: List.replicate n 'p')
    fresh_local_dir := fun n => String.mk ('d' :: List.replicate n 'q') }

/-- `ctxA` with the local-only execution flag set. -/
def ctxLocal : Ctx := { ctxA with is_local_execution := true }

/-! ### Shared helper lemmas -/

/-- A handle with no remote source and the `False` no-upload sentinel is
emitted verbatim with no storage-client call. -/
theorem toLiteral_noUpload (ctx : Ctx) (fd : FlyteDirectory) (fmt : String)
    (hsrc : fd.remote_source = .none)
    (hrd : fd.remote_directory = .noUpload) :
    async_to_literal ctx (.dir fd) fmt =
      .ok (mkBlobLit { format := fmt, dimensionality := .multipart }
        fd.path, []) := by
  simp [async_to_literal, hsrc, hrd, RemoteDir.isinstancePathOrStr,
    RemoteDir.isFalse, RemoteDir.orNone, uploadOrRef]

/-- Once a handle is downloaded, any number of further `__fspath__` calls
return its path and leave the state (in particular the invocation count)
untouched. -/
theorem fspathIter_downloaded {E : Type} (trig : Nat → Except E Unit)
    (n : Nat) (s : DownloadState) (h : s.fd.downloaded = true) :
    fspathIter trig n s = (List.replicate n (.ok s.fd.path), s) := by
  induction n with
  | zero => simp [fspathIter]
  | succ m ih => simp [fspathIter, fspath, h, ih, List.replicate_succ]

/-! ### Claims -/

/-- C3: a handle whose `remote_source` is set re-encodes to a literal whose
uri is exactly that string, with no storage-client event; in particular a
handle decoded from a remote MULTIPART blob literal has `remote_source` set
to the literal's uri and round-trips it verbatim. -/
theorem toLiteral_remote_source_passthrough (ctx : Ctx)
    (fd : FlyteDirectory) (fmt s : String)
    (h : fd.remote_source = .some s) :
    (async_to_literal ctx (.dir fd) fmt =
      .ok (mkBlobLit { format := fmt, dimensionality := .multipart } s, [])) ∧
    (∀ (b : Blob) (fmt2 : String),
      b.metadata.dimensionality = .multipart →
      ctx.is_remote b.uri = true →
      ∃ fd2 : FlyteDirectory,
        async_to_python_value ctx (mkBlobLit b.metadata b.uri) fmt2 =
          .ok fd2 ∧
        fd2.remote_source = .some b.uri ∧
        async_to_literal ctx (.dir fd2) fmt2 =
          .ok (mkBlobLit { format := fmt2, dimensionality := .multipart }
            b.uri, [])) := by
  constructor
  · simp [async_to_literal, h]
  · intro b fmt2 hdim hrem
    refine ⟨{ path := ctx.random_local_directory,
              downloader := .getData b.uri ctx.random_local_directory true
                ctx.batch_size,
              remote_source := .some b.uri, format := fmt2 }, ?_, rfl, ?_⟩
    · simp [async_to_python_value, mkBlobLit, blobBranch, hdim, hrem]
    · simp [async_to_literal]

/-- C3 witness. -/
theorem toLiteral_remote_source_passthrough_witness :
    (async_to_literal ctxA
        (.dir { path := "/tmp/x", remote_source := .some "s3://bucket/x" })
        "" =
      .ok (mkBlobLit { format := "", dimensionality := .multipart }
        "s3://bucket/x", [])) ∧
    ∃ fd2 : FlyteDirectory,
      async_to_python_value ctxA
          (mkBlobLit { format := "", dimensionality := .multipart }
            "s3://bucket/x") "" =
        .ok fd2 ∧
      fd2.remote_source = .some "s3://bucket/x" ∧
      async_to_literal ctxA (.dir fd2) "" =
        .ok (mkBlobLit { format := "", dimensionality := .multipart }
          "s3://bucket/x", []) := by
  have h := toLiteral_remote_source_passthrough ctxA
    { path := "/tmp/x", remote_source := .some "s3://bucket/x" } ""
    "s3://bucket/x" rfl
  have h2 := h.2 (Blob.mk (BlobTy.mk "" .multipart) "s3://bucket/x") ""
    rfl (by decide)
  exact ⟨h.1, h2⟩

/-- C7: a handle constructed with the `remote_directory=False` no-upload
sentinel (and no remote source, as `__init__` leaves it) never produces a
`putData` event, even when its path is local, and the literal's uri is the
source path verbatim. -/
theorem toLiteral_noUpload_sentinel (ctx : Ctx) (fd : FlyteDirectory)
    (fmt : String) (hsrc : fd.remote_source = .none)
    (hrd : fd.remote_directory = .noUpload) :
    async_to_literal ctx (.dir fd) fmt =
      .ok (mkBlobLit { format := fmt, dimensionality := .multipart }
        fd.path, []) :=
  toLiteral_noUpload ctx fd fmt hsrc hrd

/-- C7 witness: a local, non-remote path with the sentinel set. -/
theorem toLiteral_noUpload_sentinel_witness :
    ctxA.is_remote "/tmp/mydir" = false ∧
    async_to_literal ctxA
        (.dir { path := "/tmp/mydir", remote_directory := .noUpload }) "" =
      .ok (mkBlobLit { format := "", dimensionality := .multipart }
        "/tmp/mydir", []) :=
  ⟨by decide,
   toLiteral_noUpload_sentinel ctxA
     { path := "/tmp/mydir", remote_directory := .noUpload } "" rfl rfl⟩

/-- C4: on a not-yet-downloaded handle whose downloader succeeds whenever
invoked, N ≥ 1 successive `__fspath__` calls invoke the downloader exactly
once (`runs = 1`), every call returns the same path, and the final state has
`downloaded = true` (set by the first call). -/
theorem fspath_at_most_once (fd : FlyteDirectory) {E : Type}
    (trig : Nat → Except E Unit) (N : Nat)
    (hdl : fd.downloaded = false)
    (hok : ∀ k, trig k = .ok ())
    (hN : 1 ≤ N) :
    fspathIter trig N { fd := fd, runs := 0 } =
      (List.replicate N (.ok fd.path),
       { fd := { fd with downloaded := true }, runs := 1 }) := by
  obtain ⟨m, rfl⟩ : ∃ m, N = m + 1 := ⟨N - 1, (Nat.succ_pred_eq_of_pos hN).symm⟩
  have h1 : fspath trig { fd := fd, runs := 0 } =
      (.ok fd.path, { fd := { fd with downloaded := true }, runs := 1 }) := by
    simp [fspath, hdl, hok 0]
  have h2 := fspathIter_downloaded trig m
    { fd := { fd with downloaded := true }, runs := 1 } rfl
  simp [fspathIter, h1, h2, List.replicate_succ]

/-- C4 witness: three calls with an always-succeeding trigger. -/
theorem fspath_at_most_once_witness :
    fspathIter (fun _ => (.ok () : Except Unit Unit)) 3
        { fd := { path := "/tmp/d" }, runs := 0 } =
      ([.ok "/tmp/d", .ok "/tmp/d", .ok "/tmp/d"],
       { fd := { path := "/tmp/d", downloaded := true }, runs := 1 }) := by
  have h := fspath_at_most_once { path := "/tmp/d" }
    (fun _ => (.ok () : Except Unit Unit)) 3 rfl (fun _ => rfl) (by decide)
  simpa using h

/-- C10: if the downloader raises on its first invocation, the exception
propagates out of `__fspath__`, the handle's `downloaded` flag stays false
and its path is unchanged (the state still holds `fd` itself), and a
subsequent call invokes the downloader again (the invocation count reaches
2) — the at-most-once guarantee only covers successful runs. -/
theorem fspath_failure_retries (fd : FlyteDirectory) {E : Type}
    (trig : Nat → Except E Unit) (e : E)
    (hdl : fd.downloaded = false)
    (herr : trig 0 = .error e) :
    fspath trig { fd := fd, runs := 0 } =
      (.error e, { fd := fd, runs := 1 }) ∧
    (fspath trig { fd := fd, runs := 1 }).2.runs = 2 := by
  constructor
  · simp [fspath, hdl, herr]
  · cases h1 : trig 1 <;> simp [fspath, hdl, h1]

/-- C10 witness: a trigger that always raises. -/
theorem fspath_failure_retries_witness :
    fspath (fun _ => (.error 7 : Except Nat Unit))
        { fd := { path := "/tmp/d" }, runs := 0 } =
      (.error 7, { fd := { path := "/tmp/d" }, runs := 1 }) ∧
    (fspath (fun _ => (.error 7 : Except Nat Unit))
        { fd := { path := "/tmp/d" }, runs := 1 }).2.runs = 2 :=
  fspath_failure_retries { path := "/tmp/d" } (fun _ => .error 7) 7 rfl rfl

/-- `lv.scalar.binary` (None when the scalar itself is absent). -/
def scalarBinary (lv : Literal) : Option BinaryIdl :=
  lv.scalar.bind Scalar.binary

/-- `lv.scalar.generic` (None when the scalar itself is absent). -/
def scalarGeneric (lv : Literal) : Option GenericIdl :=
  lv.scalar.bind Scalar.generic

/-- `lv.scalar.blob` (None when the scalar itself is absent). -/
def scalarBlob (lv : Literal) : Option Blob :=
  lv.scalar.bind Scalar.blob

/-- With no binary and no generic payload, `async_to_python_value` is the
blob branch. -/
theorem to_python_value_eq_blobBranch (ctx : Ctx) (lv : Literal)
    (fmt : String) (hbin : scalarBinary lv = .none)
    (hgen : scalarGeneric lv = .none) :
    async_to_python_value ctx lv fmt = blobBranch ctx lv fmt := by
  cases hsc : lv.scalar with
  | none => simp [async_to_python_value, hsc]
  | some sc =>
    have hb : sc.binary = .none := by
      simpa [scalarBinary, hsc] using hbin
    have hg : sc.generic = .none := by
      simpa [scalarGeneric, hsc] using hgen
    simp [async_to_python_value, hsc, hb, hg]

/-- C5: on a literal with no binary and no generic payload, the conversion
fails with the `ConversionFailed`-style error exactly when there is no
blob/uri, fails with the `TypeMismatch`-style error exactly when the blob's
dimensionality is not MULTIPART, and raises neither once a MULTIPART blob is
present. -/
theorem from_literal_blob_errors (ctx : Ctx) (lv : Literal) (fmt : String)
    (hbin : scalarBinary lv = .none) (hgen : scalarGeneric lv = .none) :
    (scalarBlob lv = .none →
      async_to_python_value ctx lv fmt = .error .conversionFailed) ∧
    (∀ b : Blob, scalarBlob lv = .some b →
      b.metadata.dimensionality ≠ .multipart →
      async_to_python_value ctx lv fmt =
        .error (.notADirectoryBlob b.uri)) ∧
    (∀ b : Blob, scalarBlob lv = .some b →
      b.metadata.dimensionality = .multipart →
      async_to_python_value ctx lv fmt ≠ .error .conversionFailed ∧
      ∀ u : String,
        async_to_python_value ctx lv fmt ≠
          .error (.notADirectoryBlob u)) := by
  rw [to_python_value_eq_blobBranch ctx lv fmt hbin hgen]
  refine ⟨?_, ?_, ?_⟩
  · intro hnb
    have h : lv.scalar.bind Scalar.blob = .none := hnb
    simp [blobBranch, h]
  · intro b hb hdim
    have h : lv.scalar.bind Scalar.blob = .some b := hb
    simp [blobBranch, h, hdim]
  · intro b hb hdim
    have h : lv.scalar.bind Scalar.blob = .some b := hb
    constructor
    · simp only [blobBranch, h]
      rw [if_neg (by simp [hdim])]
      split
      · simp
      · split <;> simp
    · intro u
      simp only [blobBranch, h]
      rw [if_neg (by simp [hdim])]
      split
      · simp
      · split <;> simp

/-- C5 witness: a blob-less literal, a SINGLE-dimensionality blob, and a
MULTIPART blob. -/
theorem from_literal_blob_errors_witness :
    (async_to_python_value ctxA { scalar := .none } "" =
      .error .conversionFailed) ∧
    (async_to_python_value ctxA
        (mkBlobLit (BlobTy.mk "" .single) "s3://bucket/x") "" =
      .error (.notADirectoryBlob "s3://bucket/x")) ∧
    async_to_python_value ctxA
        (mkBlobLit (BlobTy.mk "" .multipart) "s3://bucket/x") "" ≠
      .error .conversionFailed := by
  refine ⟨?_, ?_, ?_⟩
  · exact (from_literal_blob_errors ctxA { scalar := .none } "" rfl rfl).1 rfl
  · exact (from_literal_blob_errors ctxA
      (mkBlobLit (BlobTy.mk "" .single) "s3://bucket/x") "" rfl rfl).2.1
      (Blob.mk (BlobTy.mk "" .single) "s3://bucket/x") rfl (by simp)
  · exact ((from_literal_blob_errors ctxA
      (mkBlobLit (BlobTy.mk "" .multipart) "s3://bucket/x") "" rfl rfl).2.2
      (Blob.mk (BlobTy.mk "" .multipart) "s3://bucket/x") rfl rfl).1

/-- C6: a MULTIPART blob literal with a non-remote uri fails with the "not a
directory" assertion unless the local path is a directory; when it is, the
returned handle has `remote_directory` forced to the no-upload sentinel, the
default `noop` downloader (no trigger bound) and no remote source — so
re-encoding it emits the same uri with no upload under any context. -/
theorem from_literal_local_uri (ctx : Ctx) (b : Blob) (fmt fmt2 : String)
    (hdim : b.metadata.dimensionality = .multipart)
    (hlocal : ctx.is_remote b.uri = false) :
    (ctx.is_dir b.uri = false →
      async_to_python_value ctx (mkBlobLit b.metadata b.uri) fmt =
        .error (.notADirectoryUri b.uri)) ∧
    (ctx.is_dir b.uri = true →
      async_to_python_value ctx (mkBlobLit b.metadata b.uri) fmt =
        .ok { path := b.uri, downloader := .noop, downloaded := false,
              remote_directory := .noUpload, remote_source := .none,
              format := fmt } ∧
      ∀ ctx2 : Ctx,
        async_to_literal ctx2
            (.dir { path := b.uri, downloader := .noop, downloaded := false,
                    remote_directory := .noUpload, remote_source := .none,
                    format := fmt }) fmt2 =
          .ok (mkBlobLit { format := fmt2, dimensionality := .multipart }
            b.uri, [])) := by
  constructor
  · intro hnd
    simp [async_to_python_value, mkBlobLit, blobBranch, hdim, hlocal, hnd]
  · intro hd
    refine ⟨?_, fun ctx2 => toLiteral_noUpload ctx2 _ fmt2 rfl rfl⟩
    simp [async_to_python_value, mkBlobLit, blobBranch, hdim, hlocal, hd]

/-- C6 witness: `/tmp/mydir` is a local directory in `ctxA`, `/tmp/other` is
not. -/
theorem from_literal_local_uri_witness :
    (async_to_python_value ctxA
        (mkBlobLit (BlobTy.mk "" .multipart) "/tmp/mydir") "" =
      .ok { path := "/tmp/mydir", downloader := .noop, downloaded := false,
            remote_directory := .noUpload, remote_source := .none,
            format := "" } ∧
      async_to_literal ctxA
          (.dir { path := "/tmp/mydir", downloader := .noop,
                  downloaded := false, remote_directory := .noUpload,
                  remote_source := .none, format := "" }) "" =
        .ok (mkBlobLit { format := "", dimensionality := .multipart }
          "/tmp/mydir", [])) ∧
    async_to_python_value ctxA
        (mkBlobLit (BlobTy.mk "" .multipart) "/tmp/other") "" =
      .error (.notADirectoryUri "/tmp/other") := by
  constructor
  · have h := (from_literal_local_uri ctxA
      (Blob.mk (BlobTy.mk "" .multipart) "/tmp/mydir") "" "" rfl
      (by decide)).2 (by decide)
    exact ⟨h.1, h.2 ctxA⟩
  · exact (from_literal_local_uri ctxA
      (Blob.mk (BlobTy.mk "" .multipart) "/tmp/other") "" "" rfl
      (by decide)).1 (by decide)

/-- C1 counterexample: a handle whose path is remote but which also carries
an explicit remote destination string. The code keeps `should_upload = True`
(the suppression guard requires `remote_directory` not to be a `str` or
`pathlib.Path`), reaches the pre-upload assertion and raises — it does not
emit the source path verbatim. -/
theorem toLiteral_remote_source_path_counterexample :
    ctxA.is_remote "s3://bucket/src" = true ∧
    async_to_literal ctxA
        (.dir { path := "s3://bucket/src",
                remote_directory := .str "s3://bucket/dst" }) "" =
      .error (.expectedDirectoryAssertion "s3://bucket/src") := by
  exact ⟨by decide, by decide⟩

/-- C1 (amended): an input whose source path is remote yields
`should_upload = false` — no `putData`, literal uri = source path verbatim —
for string/path inputs always, and for handle inputs provided the handle's
`remote_directory` is not an explicit `str`/`pathlib.Path` destination. -/
theorem toLiteral_remote_source_path_no_upload (ctx : Ctx) (fmt : String) :
    (∀ fd : FlyteDirectory, fd.remote_source = .none →
      fd.remote_directory.isinstancePathOrStr = false →
      ctx.is_remote fd.path = true →
      async_to_literal ctx (.dir fd) fmt =
        .ok (mkBlobLit { format := fmt, dimensionality := .multipart }
          fd.path, [])) ∧
    (∀ s : String, ctx.is_remote s = true →
      async_to_literal ctx (.strPath s) fmt =
        .ok (mkBlobLit { format := fmt, dimensionality := .multipart }
          s, [])) := by
  constructor
  · intro fd hsrc hinst hrem
    simp [async_to_literal, hsrc, hinst, hrem, uploadOrRef]
  · intro s hrem
    simp [async_to_literal, hrem, uploadOrRef]

/-- C1 (amended) witness: a remote handle path with no explicit destination,
and a remote plain-string path. -/
theorem toLiteral_remote_source_path_no_upload_witness :
    (ctxA.is_remote "s3://bucket/src" = true ∧
      async_to_literal ctxA (.dir { path := "s3://bucket/src" }) "" =
        .ok (mkBlobLit { format := "", dimensionality := .multipart }
          "s3://bucket/src", [])) ∧
    async_to_literal ctxA (.strPath "s3://bucket/src") "" =
      .ok (mkBlobLit { format := "", dimensionality := .multipart }
        "s3://bucket/src", []) := by
  have h := toLiteral_remote_source_path_no_upload ctxA ""
  exact ⟨⟨by decide, h.1 { path := "s3://bucket/src" } rfl rfl (by decide)⟩,
         h.2 "s3://bucket/src" (by decide)⟩

/-- C2 counterexample: in local-only execution mode, a plain string input
naming a real local directory is still uploaded — the string branch of
`async_to_literal` never consults the local-execution flag, so a `putData`
call occurs and the literal's uri is the upload destination, not the source
path. -/
theorem toLiteral_local_exec_counterexample :
    ctxLocal.is_local_execution = true ∧
    ctxLocal.is_remote "/tmp/mydir" = false ∧
    async_to_literal ctxLocal (.strPath "/tmp/mydir") "" =
      .ok (mkBlobLit { format := "", dimensionality := .multipart }
        "s3://rand/xyz", [.putData "/tmp/mydir" "s3://rand/xyz" true]) := by
  exact ⟨rfl, by decide, by decide⟩

/-- C2 (amended): with the local-only execution flag set and no explicit
remote destination string, `should_upload` is false for `FlyteDirectory`
handle inputs (no `putData`, uri = source path verbatim); plain string/path
inputs are outside the suppression rule. -/
theorem toLiteral_local_exec_handle_no_upload (ctx : Ctx)
    (fd : FlyteDirectory) (fmt : String)
    (hloc : ctx.is_local_execution = true)
    (hsrc : fd.remote_source = .none)
    (hinst : fd.remote_directory.isinstancePathOrStr = false) :
    async_to_literal ctx (.dir fd) fmt =
      .ok (mkBlobLit { format := fmt, dimensionality := .multipart }
        fd.path, []) := by
  simp [async_to_literal, hsrc, hinst, hloc, uploadOrRef]

/-- C2 (amended) witness: a local handle path in local-only mode. -/
theorem toLiteral_local_exec_handle_no_upload_witness :
    ctxLocal.is_remote "/tmp/mydir" = false ∧
    async_to_literal ctxLocal (.dir { path := "/tmp/mydir" }) "" =
      .ok (mkBlobLit { format := "", dimensionality := .multipart }
        "/tmp/mydir", []) :=
  ⟨by decide,
   toLiteral_local_exec_handle_no_upload ctxLocal { path := "/tmp/mydir" }
     "" rfl rfl rfl⟩

/-- C9: `FlyteDirectory.new` rejects absolute names, joins relative names
under the execution's working directory, fails with the already-exists
error when the joined directory exists, and otherwise eagerly creates it and
returns a handle whose path is the joined path. -/
theorem new_scratch_directory (ctx : Ctx) (fs_exists : String → Bool)
    (dirname : String) :
    (isAbs dirname = true →
      FlyteDirectory.new ctx fs_exists dirname =
        .error .pathShouldBeRelative) ∧
    (isAbs dirname = false →
      fs_exists (osPathJoin ctx.working_directory dirname) = true →
      FlyteDirectory.new ctx fs_exists dirname =
        .error (.fileExists (osPathJoin ctx.working_directory dirname))) ∧
    (isAbs dirname = false →
      fs_exists (osPathJoin ctx.working_directory dirname) = false →
      ∃ fs2 : String → Bool,
        FlyteDirectory.new ctx fs_exists dirname =
          .ok ({ path := osPathJoin ctx.working_directory dirname }, fs2) ∧
        fs2 (osPathJoin ctx.working_directory dirname) = true) := by
  refine ⟨?_, ?_, ?_⟩
  · intro habs
    simp [FlyteDirectory.new, habs]
  · intro habs hex
    simp [FlyteDirectory.new, habs, hex]
  · intro habs hex
    refine ⟨fun p =>
      p = osPathJoin ctx.working_directory dirname || fs_exists p, ?_, ?_⟩
    · simp [FlyteDirectory.new, habs, hex]
    · simp

/-- C9 witness: the spec scenario with cwd `/work` and name `out`, its
re-run on an existing `/work/out`, and an absolute name. -/
theorem new_scratch_directory_witness :
    osPathJoin ctxA.working_directory "out" = "/work/out" ∧
    (∃ fs2 : String → Bool,
      FlyteDirectory.new ctxA (fun _ => false) "out" =
        .ok ({ path := osPathJoin ctxA.working_directory "out" }, fs2) ∧
      fs2 (osPathJoin ctxA.working_directory "out") = true) ∧
    FlyteDirectory.new ctxA (fun p => p = "/work/out") "out" =
      .error (.fileExists (osPathJoin ctxA.working_directory "out")) ∧
    FlyteDirectory.new ctxA (fun _ => false) "/out" =
      .error .pathShouldBeRelative := by
  refine ⟨by decide, ?_, ?_, ?_⟩
  · exact (new_scratch_directory ctxA (fun _ => false) "out").2.2
      (by decide) (by decide)
  · exact (new_scratch_directory ctxA (fun p => p = "/work/out") "out").2.1
      (by decide) (by decide)
  · exact (new_scratch_directory ctxA (fun _ => false) "/out").1 (by decide)

/-- The child handle `listdir` builds for the entry at allocation index `n`:
its own remote key, a fresh local destination, a bound lazy `get_data`
downloader (single-object for files, recursive multipart for
subdirectories), and `remote_source` set to the remote key. -/
def listdirExpectedChild (ctx : Ctx) (final_path : String) (n : Nat)
    (e : ListEntry) : PathEntry :=
  match e.type with
  | .file =>
    .file { path := ctx.fresh_local_path n,
            downloader := .getData (osPathJoin final_path (basename e.name))
              (ctx.fresh_local_path n) false .none,
            remote_source :=
              .some (osPathJoin final_path (basename e.name)) }
  | .directory =>
    .dir { path := ctx.fresh_local_dir n,
           downloader := .getData (osPathJoin final_path (basename e.name))
             (ctx.fresh_local_dir n) true .none,
           remote_source :=
             .some (osPathJoin final_path (basename e.name)) }

/-- The remote listing loop produces exactly the expected child per entry,
indexed from the starting allocation counter. -/
theorem listdirRemoteChildren_eq (ctx : Ctx) (fp : String) :
    ∀ (l : List ListEntry) (n : Nat),
      listdirRemoteChildren ctx fp l n =
        (List.enumFrom n l).map
          (fun p => listdirExpectedChild ctx fp p.1 p.2)
  | [], n => by simp [listdirRemoteChildren]
  | e :: rest, n => by
    cases he : e.type <;>
      simp [listdirRemoteChildren, listdirExpectedChild, he,
        List.enumFrom, listdirRemoteChildren_eq ctx fp rest (n + 1)]

/-- C8: listing a directory whose effective path (remote source preferred,
else remote destination, else path) is remote performs exactly one remote
listing call and no transfer call, and returns one lazy child per listed
entry — each with `remote_source` set to its own remote key, a fresh local
destination and a bound `get_data` downloader (single-object fetch for
files, recursive multipart fetch for subdirectories). -/
theorem listdir_remote_lazy (ctx : Ctx) (fd : FlyteDirectory)
    (hrem : ctx.is_remote (effective_path fd) = true) :
    (listdir ctx fd).2 = [.listdirCall (effective_path fd)] ∧
    (listdir ctx fd).1 =
      (List.enum (ctx.fs_listdir (effective_path fd))).map
        (fun p => listdirExpectedChild ctx (effective_path fd) p.1 p.2) := by
  constructor <;>
    simp [listdir, hrem, listdirRemoteChildren_eq, List.enum]

/-- `ctxA` with a two-entry remote listing. -/
def ctxB : Ctx :=
  { ctxA with fs_listdir := fun _ =>
      [{ name := "a.txt", type := .file },
       { name := "sub", type := .directory }] }

/-- C8 witness: a remote directory with one file and one subdirectory; the
children evaluate to the two expected lazy handles. -/
theorem listdir_remote_lazy_witness :
    ctxB.is_remote (effective_path { path := "s3://b/dir" }) = true ∧
    ((listdir ctxB { path := "s3://b/dir" }).2 =
        [.listdirCall (effective_path { path := "s3://b/dir" })] ∧
      (listdir ctxB { path := "s3://b/dir" }).1 =
        (List.enum (ctxB.fs_listdir
            (effective_path { path := "s3://b/dir" }))).map
          (fun p => listdirExpectedChild ctxB
            (effective_path { path := "s3://b/dir" }) p.1 p.2)) ∧
    (listdir ctxB { path := "s3://b/dir" }).1 =
      [.file { path := "f",
               downloader := .getData "s3://b/dir/a.txt" "f" false .none,
               remote_source := .some "s3://b/dir/a.txt" },
       .dir { path := "dq",
              downloader := .getData "s3://b/dir/sub" "dq" true .none,
              remote_source := .some "s3://b/dir/sub" }] := by
  exact ⟨by decide,
         listdir_remote_lazy ctxB { path := "s3://b/dir" } (by decide),
         by decide⟩

end Flytekit
